import Mathlib

/-!
Shallow embedding of the orbit-geometry core of the solar-system renderer
(`src/app/scene/scene.service.ts`), over the real numbers.

The companion model file `scene.model.ts` (data types `Point`, `CelestialBody`,
`Ellipse`, `OrbitPoint`, `LagrangePoint`, and the constants `DEG_TO_RAD`,
`AU_TO_KM`) is not part of the provided sources; those types and constants are
modelled from the specification (§3, §6).  Everything with algorithmic content
(`getOrbitEllipse`, `getOrbitPath`, `getPositionForTrueAnomaly`,
`getDistanceToFocusPoint`, `getEarthLagrangePoints`, and the constructor's
initialization pass) is translated directly from `scene.service.ts`.
-/

namespace SolarSystem

noncomputable section

/-- Modelled from the spec (§3): a 2-D coordinate pair in the shared display
unit.  From `scene.model.ts`, which is not under the provided sources. -/
@[ext]
structure Point where
  x : ℝ
  y : ℝ

/-- Modelled from the spec (§3, §4.1): `(cx, cy, rx, ry)`, the display ellipse
a body's orbit traces.  From `scene.model.ts`. -/
structure Ellipse where
  cx : ℝ
  cy : ℝ
  rx : ℝ
  ry : ℝ

/-- Modelled from the spec (§3): one sample of an orbit path,
`(trueAnomaly, x, y)`.  From `scene.model.ts`. -/
structure OrbitPoint where
  trueAnomaly : ℝ
  x : ℝ
  y : ℝ

/-- Modelled from the spec (§3): the tag of one of the five libration points.
From `scene.model.ts`. -/
inductive LagrangePointType where
  | L1 | L2 | L3 | L4 | L5
deriving DecidableEq

/-- Modelled from the spec (§3): `(x, y, type)`.  From `scene.model.ts`. -/
structure LagrangePoint where
  x : ℝ
  y : ℝ
  type : LagrangePointType

/-- The 5-tuple `[l1, l2, l3, l4, l5]` returned by the libration solver in
`scene.service.ts` (`getEarthLagrangePoints`). -/
structure LagrangePoints where
  l1 : LagrangePoint
  l2 : LagrangePoint
  l3 : LagrangePoint
  l4 : LagrangePoint
  l5 : LagrangePoint

/-- Modelled from the spec (§3, §6): one orbiting or orbited object, as read by
the geometry queries of `scene.service.ts`.  The TypeScript record holds a
non-owning reference `orbitBody` to the orbited body; the geometry functions
read exactly one datum through it, `body.orbitBody.position`, which is embedded
here as the field `orbitBodyPosition`.  From `scene.model.ts`. -/
structure CelestialBody where
  mass : ℝ
  semiMajorAxis : ℝ
  eccentricity : ℝ
  meanAnomaly : ℝ
  trueAnomaly : ℝ
  position : Point
  orbitBodyPosition : Point

/-- Modelled from the spec (§6): the fixed degrees-to-radians conversion
factor, `DEG_TO_RAD` of `scene.model.ts`. -/
def DEG_TO_RAD : ℝ := Real.pi / 180

/-- `export const KM_TO_PX = 1e5` (`scene.service.ts`, line 14). -/
def KM_TO_PX : ℝ := 1e5

/-- `getDistanceToFocusPoint(body, trueAnomaly)` (`scene.service.ts`,
lines 96–98): polar form of the conic,
`a * (1 − e²) / (1 + e · cos(trueAnomaly · DEG_TO_RAD))`. -/
def getDistanceToFocusPoint (body : CelestialBody) (trueAnomaly : ℝ) : ℝ :=
  (body.semiMajorAxis * (1 - body.eccentricity ^ 2)) /
    (1 + body.eccentricity * Real.cos (trueAnomaly * DEG_TO_RAD))

/-- `getPositionForTrueAnomaly(body, trueAnomaly)` (`scene.service.ts`,
lines 75–89): converts the focal distance to a Cartesian offset (y negated for
the top-left SVG origin), scales by `KM_TO_PX`, and adds the orbited body's
absolute position. -/
def getPositionForTrueAnomaly (body : CelestialBody) (trueAnomaly : ℝ) : Point :=
  let d := getDistanceToFocusPoint body trueAnomaly
  let yKm := - d * Real.sin (trueAnomaly * DEG_TO_RAD)
  let xKm := d * Real.cos (trueAnomaly * DEG_TO_RAD)
  { x := (xKm / KM_TO_PX) + body.orbitBodyPosition.x
    y := (yKm / KM_TO_PX) + body.orbitBodyPosition.y }

/-- `getOrbitEllipse(body)` (`scene.service.ts`, lines 40–49). -/
def getOrbitEllipse (body : CelestialBody) : Ellipse :=
  { cx := body.orbitBodyPosition.x - (body.eccentricity * body.semiMajorAxis / KM_TO_PX)
    cy := body.orbitBodyPosition.y
    rx := body.semiMajorAxis / KM_TO_PX
    ry := Real.sqrt ((body.semiMajorAxis ^ 2) * (1 - (body.eccentricity ^ 2))) / KM_TO_PX }

/-- `d3.range(start, stop, step)` (third-party d3 library, modelled from its
documented semantics): returns `max 0 ⌈(stop − start) / step⌉` values
`start + i · step`, `i = 0, 1, …`. -/
def d3Range (start stop step : ℝ) : List ℝ :=
  (List.range (⌈(stop - start) / step⌉.toNat)).map (fun (i : ℕ) => start + (i : ℝ) * step)

/-- Relation by which `getOrbitPath` sorts its samples: the JS comparator
`(p1, p2) => p1.trueAnomaly - p2.trueAnomaly`, i.e. ascending `trueAnomaly`. -/
def byTrueAnomaly (p q : OrbitPoint) : Prop := p.trueAnomaly ≤ q.trueAnomaly

instance : DecidableRel byTrueAnomaly := fun p q =>
  inferInstanceAs (Decidable (p.trueAnomaly ≤ q.trueAnomaly))

instance : IsTotal OrbitPoint byTrueAnomaly :=
  ⟨fun p q => le_total p.trueAnomaly q.trueAnomaly⟩

instance : IsTrans OrbitPoint byTrueAnomaly :=
  ⟨fun _ _ _ h h' => le_trans h h'⟩

/-- `getOrbitPath(body, nbPoints = 360)` (`scene.service.ts`, lines 54–70):
samples `d3.range(0, 360, 360 / nbPoints)`, maps each true anomaly to an
`OrbitPoint`, pushes the body's own `(trueAnomaly, position)`, and sorts
ascending by `trueAnomaly`. -/
def getOrbitPath (body : CelestialBody) (nbPoints : ℕ := 360) : List OrbitPoint :=
  let result := (d3Range 0 360 (360 / (nbPoints : ℝ))).map (fun trueAnomaly =>
    let point := getPositionForTrueAnomaly body trueAnomaly
    OrbitPoint.mk trueAnomaly point.x point.y)
  List.insertionSort byTrueAnomaly
    (result ++ [OrbitPoint.mk body.trueAnomaly body.position.x body.position.y])

/-- `Math.cbrt` on the nonnegative reals (its only use site feeds it a ratio of
positive masses). -/
def cbrt (x : ℝ) : ℝ := x ^ ((1 : ℝ) / 3)

/-- `getEarthLagrangePoints()` (`scene.service.ts`, lines 104–142),
parametrized by the data it reads: `SUN.mass`, `EARTH.mass` and
`EARTH.position` (the static catalog files are not under the provided
sources). -/
def getEarthLagrangePoints (sunMass earthMass : ℝ) (earthPos : Point) : LagrangePoints :=
  let distance := Real.sqrt (earthPos.x ^ 2 + earthPos.y ^ 2)
  let r := distance * cbrt (earthMass / (3 * sunMass))
  let l1 : LagrangePoint :=
    { x := (earthPos.x * (distance - r)) / distance
      y := (earthPos.y * (distance - r)) / distance
      type := LagrangePointType.L1 }
  let l2 : LagrangePoint :=
    { x := (earthPos.x * (distance + r)) / distance
      y := (earthPos.y * (distance + r)) / distance
      type := LagrangePointType.L2 }
  let r3 := distance * ((7 * earthMass) / (12 * sunMass))
  let l3 : LagrangePoint :=
    { x := - (earthPos.x * (distance - r3)) / distance
      y := - (earthPos.y * (distance - r3)) / distance
      type := LagrangePointType.L3 }
  let l4 : LagrangePoint :=
    { x := (earthPos.x * Real.cos (60 * DEG_TO_RAD)) + (earthPos.y * Real.sin (60 * DEG_TO_RAD))
      y := - (earthPos.x * Real.sin (60 * DEG_TO_RAD)) + (earthPos.y * Real.cos (60 * DEG_TO_RAD))
      type := LagrangePointType.L4 }
  let l5 : LagrangePoint :=
    { x := (earthPos.x * Real.cos (-60 * DEG_TO_RAD)) + (earthPos.y * Real.sin (-60 * DEG_TO_RAD))
      y := - (earthPos.x * Real.sin (-60 * DEG_TO_RAD)) + (earthPos.y * Real.cos (-60 * DEG_TO_RAD))
      type := LagrangePointType.L5 }
  ⟨l1, l2, l3, l4, l5⟩

/-- Euclidean length of a position vector relative to the origin: the
`Math.sqrt((x ** 2) + (y ** 2))` of `scene.service.ts`, line 106. -/
def pointNorm (p : Point) : ℝ := Real.sqrt (p.x ^ 2 + p.y ^ 2)

/-- Coordinates of a libration point, forgetting the tag. -/
def LagrangePoint.pt (lp : LagrangePoint) : Point := ⟨lp.x, lp.y⟩

/-- Componentwise scaling of a position vector. -/
def scalePoint (t : ℝ) (p : Point) : Point := ⟨t * p.x, t * p.y⟩

/-- Negation of a position vector. -/
def negPoint (p : Point) : Point := ⟨-p.x, -p.y⟩

/-- Modelled from the spec (§4.2): the standard counterclockwise rotation of a
plane vector by an angle (in radians) about the origin. -/
def rotateRad (θ : ℝ) (p : Point) : Point :=
  ⟨p.x * Real.cos θ - p.y * Real.sin θ, p.x * Real.sin θ + p.y * Real.cos θ⟩

/-- The reflection that converts between mathematical (y-up) and display
(top-left origin, y-down) coordinates. -/
def yFlip (p : Point) : Point := ⟨p.x, -p.y⟩

/-- Modelled from the spec (§4.1, §4.2): rotation by an angle in degrees about
the origin of the display coordinate system, i.e. the mathematical rotation
conjugated by the y-axis flip of the y-down display frame. -/
def rotateDisplayDeg (deg : ℝ) (p : Point) : Point :=
  yFlip (rotateRad (deg * DEG_TO_RAD) (yFlip p))

/-! ### The catalog initializer (`SceneService.constructor`)

The constructor (`scene.service.ts`, lines 26–35) walks the static
`SOLAR_SYSTEM` list once, skipping the sun, and for each body sets
`trueAnomaly := meanAnomaly` and
`position := getPositionForTrueAnomaly(body, trueAnomaly)`, reading the
orbited body's position as it stands at that moment.  The static catalog
(`SolarSystem.data.ts`) is not under the provided sources; it is modelled from
the spec (§5, §6) as an indexed family of records whose `orbitBody` relation
is a reference to an earlier entry (primary-first topological order). -/

/-- Modelled from the spec (§3, §6): one catalog record, before
initialization.  `orbitBody` is an index into the catalog (`none` for the
primary); `initPosition` is the record's `position` field as the static data
created it (only ever read for primaries, which the initializer skips). -/
structure CatalogBody (n : ℕ) where
  mass : ℝ
  semiMajorAxis : ℝ
  eccentricity : ℝ
  meanAnomaly : ℝ
  orbitBody : Option (Fin n)
  initPosition : Point

/-- The view of catalog record `i` as the flat `CelestialBody` read by the
geometry queries, given a table `pos` of current absolute positions and a
current true anomaly `ta` for the record itself. -/
def CatalogBody.view {n : ℕ} (cat : Fin n → CatalogBody n) (pos : Fin n → Point)
    (i : Fin n) (ta : ℝ) : CelestialBody :=
  { mass := (cat i).mass
    semiMajorAxis := (cat i).semiMajorAxis
    eccentricity := (cat i).eccentricity
    meanAnomaly := (cat i).meanAnomaly
    trueAnomaly := ta
    position := pos i
    orbitBodyPosition := match (cat i).orbitBody with
      | some j => pos j
      | none => (cat i).initPosition }

/-- One iteration of the constructor's `forEach`: if record `i` is orbiting
(the `filter` skips the primary), overwrite its position with
`getPositionForTrueAnomaly(body, meanAnomaly)` computed against the current
position table. -/
def initStep {n : ℕ} (cat : Fin n → CatalogBody n) (pos : Fin n → Point)
    (i : Fin n) : Fin n → Point :=
  match (cat i).orbitBody with
  | none => pos
  | some _ =>
      Function.update pos i
        (getPositionForTrueAnomaly (CatalogBody.view cat pos i ((cat i).meanAnomaly))
          ((cat i).meanAnomaly))

/-- The position table after the first `m` iterations of the constructor's
pass, starting from the catalog-given positions. -/
def initUpto {n : ℕ} (cat : Fin n → CatalogBody n) : ℕ → (Fin n → Point)
  | 0 => fun i => (cat i).initPosition
  | m + 1 =>
      if h : m < n then initStep cat (initUpto cat m) ⟨m, h⟩
      else initUpto cat m

/-- The position table after the constructor's full initialization pass. -/
def initPositions {n : ℕ} (cat : Fin n → CatalogBody n) : Fin n → Point :=
  initUpto cat n

/-- Record `i`'s final `CelestialBody` state once the catalog has been
initialized: `trueAnomaly = meanAnomaly` for orbiting bodies, and all
positions read from the final table. -/
def bodyAfterInit {n : ℕ} (cat : Fin n → CatalogBody n) (i : Fin n) : CelestialBody :=
  CatalogBody.view cat (initPositions cat) i ((cat i).meanAnomaly)

/-- A concrete body used to instantiate hypotheses in witnesses:
semi-major axis `2`, eccentricity `0`, circular orbit around the origin. -/
def wBody : CelestialBody :=
  { mass := 1, semiMajorAxis := 2, eccentricity := 0, meanAnomaly := 0,
    trueAnomaly := 0, position := ⟨0, 0⟩, orbitBodyPosition := ⟨0, 0⟩ }

/-- A concrete two-body catalog used to instantiate hypotheses in witnesses:
record `0` is the primary at the origin, record `1` orbits it. -/
def catW : Fin 2 → CatalogBody 2 := fun i =>
  if i = 0 then
    { mass := 1, semiMajorAxis := 2, eccentricity := 0, meanAnomaly := 0,
      orbitBody := none, initPosition := ⟨0, 0⟩ }
  else
    { mass := 1, semiMajorAxis := 2, eccentricity := 0, meanAnomaly := 0,
      orbitBody := some 0, initPosition := ⟨0, 0⟩ }

/-! ### Shared helper facts -/

/-- `KM_TO_PX` is positive. -/
lemma KM_TO_PX_pos : 0 < KM_TO_PX := by norm_num [KM_TO_PX]

/-- For `0 ≤ e < 1` the conic denominator `1 + e · cos ψ` is at least `1 − e`. -/
lemma conic_denom_ge (e ψ : ℝ) (he0 : 0 ≤ e) :
    1 - e ≤ 1 + e * Real.cos ψ := by
  have hc := Real.neg_one_le_cos ψ
  nlinarith

/-- Scaling a position vector by a nonnegative factor scales its norm. -/
lemma pointNorm_scalePoint (t : ℝ) (p : Point) (ht : 0 ≤ t) :
    pointNorm (scalePoint t p) = t * pointNorm p := by
  unfold pointNorm scalePoint
  rw [show (t * p.x) ^ 2 + (t * p.y) ^ 2 = t ^ 2 * (p.x ^ 2 + p.y ^ 2) by ring,
    Real.sqrt_mul (sq_nonneg t), Real.sqrt_sq ht]

/-- Negating a position vector preserves its norm. -/
lemma pointNorm_negPoint (p : Point) : pointNorm (negPoint p) = pointNorm p := by
  unfold pointNorm negPoint
  norm_num

/-- The cube root of the cube of a nonnegative real. -/
lemma cbrt_cube (y : ℝ) (hy : 0 ≤ y) : cbrt (y ^ 3) = y := by
  unfold cbrt
  rw [← Real.rpow_natCast y 3, ← Real.rpow_mul hy]
  norm_num

/-- `cbrt` is nonnegative on nonnegative input. -/
lemma cbrt_nonneg (x : ℝ) (hx : 0 ≤ x) : 0 ≤ cbrt x :=
  Real.rpow_nonneg hx _

/-- `cbrt` of a value in `[0, 1]` is at most `1`. -/
lemma cbrt_le_one (x : ℝ) (hx0 : 0 ≤ x) (hx1 : x ≤ 1) : cbrt x ≤ 1 :=
  Real.rpow_le_one hx0 hx1 (by norm_num)

/-- Entries the initialization pass has not yet reached still hold their
catalog-given positions. -/
lemma initUpto_of_le {n : ℕ} (cat : Fin n → CatalogBody n) (m : ℕ) (k : Fin n)
    (h : m ≤ (k : ℕ)) : initUpto cat m k = (cat k).initPosition := by
  induction m with
  | zero => rfl
  | succ m ih =>
    have hm' : m ≤ (k : ℕ) := Nat.le_of_succ_le h
    show initUpto cat (m + 1) k = _
    simp only [initUpto]
    split
    · rename_i hmn
      cases hob : (cat ⟨m, hmn⟩).orbitBody with
      | none =>
        simp only [initStep, hob]
        exact ih hm'
      | some j =>
        simp only [initStep, hob]
        rw [Function.update_noteq (Fin.ne_of_val_ne (by omega : (k : ℕ) ≠ m))]
        exact ih hm'
    · exact ih hm'

/-- Once the pass has processed an entry, later iterations leave it
unchanged: the table at any later time agrees with the table just after the
entry's own iteration. -/
lemma initUpto_stable {n : ℕ} (cat : Fin n → CatalogBody n) (k : Fin n) :
    ∀ m : ℕ, (k : ℕ) < m → initUpto cat m k = initUpto cat ((k : ℕ) + 1) k := by
  intro m
  induction m with
  | zero => intro h; exact absurd h (Nat.not_lt_zero _)
  | succ m ih =>
    intro h
    rcases Nat.lt_succ_iff_lt_or_eq.mp h with h' | h'
    · show initUpto cat (m + 1) k = _
      simp only [initUpto]
      split
      · rename_i hmn
        cases hob : (cat ⟨m, hmn⟩).orbitBody with
        | none =>
          simp only [initStep, hob]
          exact ih h'
        | some j =>
          simp only [initStep, hob]
          rw [Function.update_noteq (Fin.ne_of_val_ne (by omega : (k : ℕ) ≠ m))]
          exact ih h'
      · exact ih h'
    · rw [← h']

/-- The final table's entry for `i` is the one written by iteration `i`. -/
lemma initPositions_eq_upto {n : ℕ} (cat : Fin n → CatalogBody n) (i : Fin n) :
    initPositions cat i = initUpto cat ((i : ℕ) + 1) i :=
  initUpto_stable cat i n i.isLt

/-- `getPositionForTrueAnomaly` reads only the orbital elements and the
orbited body's position, never the body's own cached position. -/
lemma getPositionForTrueAnomaly_congr (b b' : CelestialBody) (ta : ℝ)
    (h1 : b.semiMajorAxis = b'.semiMajorAxis)
    (h2 : b.eccentricity = b'.eccentricity)
    (h3 : b.orbitBodyPosition = b'.orbitBodyPosition) :
    getPositionForTrueAnomaly b ta = getPositionForTrueAnomaly b' ta := by
  unfold getPositionForTrueAnomaly getDistanceToFocusPoint
  rw [h1, h2, h3]

/-- For a positive sample count `n`, `d3.range(0, 360, 360 / n)` yields
exactly the `n` evenly spaced values `i · (360 / n)`, `i = 0, …, n − 1`. -/
lemma d3Range_eq (n : ℕ) (hn : 0 < n) :
    d3Range 0 360 (360 / (n : ℝ)) =
      (List.range n).map (fun (i : ℕ) => (i : ℝ) * (360 / (n : ℝ))) := by
  unfold d3Range
  have hn' : (n : ℝ) ≠ 0 := Nat.cast_ne_zero.mpr hn.ne'
  have h1 : ((360 : ℝ) - 0) / (360 / (n : ℝ)) = (n : ℝ) := by
    field_simp
  rw [h1, Int.ceil_natCast, Int.toNat_natCast]
  simp only [zero_add]

end

/-! ### Claims -/

noncomputable section

/-- **C5.**  For every body with `semiMajorAxis a > 0` and eccentricity
`e ∈ [0,1)`, `getDistanceToFocusPoint body θ` equals
`a·(1 − e²) / (1 + e·cos(θ·DEG_TO_RAD))` for every real degree value `θ`;
at `θ = 0°` it equals the periapsis distance `a·(1 − e)` and at `θ = 180°`
the apoapsis distance `a·(1 + e)`. -/
theorem claim_C5_distanceToFocus (body : CelestialBody) (θ : ℝ)
    (ha : 0 < body.semiMajorAxis) (he0 : 0 ≤ body.eccentricity)
    (he1 : body.eccentricity < 1) :
    getDistanceToFocusPoint body θ =
      body.semiMajorAxis * (1 - body.eccentricity ^ 2) /
        (1 + body.eccentricity * Real.cos (θ * DEG_TO_RAD)) ∧
    getDistanceToFocusPoint body 0 = body.semiMajorAxis * (1 - body.eccentricity) ∧
    getDistanceToFocusPoint body 180 = body.semiMajorAxis * (1 + body.eccentricity) := by
  refine ⟨rfl, ?_, ?_⟩
  · have h1 : (1 : ℝ) + body.eccentricity ≠ 0 := by linarith
    unfold getDistanceToFocusPoint
    rw [zero_mul, Real.cos_zero]
    field_simp
    ring
  · have h1 : (1 : ℝ) - body.eccentricity ≠ 0 := by linarith
    unfold getDistanceToFocusPoint
    rw [show (180 : ℝ) * DEG_TO_RAD = Real.pi by unfold DEG_TO_RAD; ring, Real.cos_pi]
    rw [show (1 : ℝ) + body.eccentricity * (-1) = 1 - body.eccentricity by ring]
    field_simp
    ring

/-- Witness for C5 at the concrete body `wBody` and `θ = 90`. -/
theorem claim_C5_witness :
    0 < wBody.semiMajorAxis ∧ 0 ≤ wBody.eccentricity ∧ wBody.eccentricity < 1 ∧
    (getDistanceToFocusPoint wBody 90 =
      wBody.semiMajorAxis * (1 - wBody.eccentricity ^ 2) /
        (1 + wBody.eccentricity * Real.cos (90 * DEG_TO_RAD)) ∧
    getDistanceToFocusPoint wBody 0 = wBody.semiMajorAxis * (1 - wBody.eccentricity) ∧
    getDistanceToFocusPoint wBody 180 = wBody.semiMajorAxis * (1 + wBody.eccentricity)) :=
  ⟨by norm_num [wBody], by norm_num [wBody], by norm_num [wBody],
    claim_C5_distanceToFocus wBody 90 (by norm_num [wBody]) (by norm_num [wBody])
      (by norm_num [wBody])⟩

/-- **C9.**  For every body with eccentricity `e ∈ [0,1)` and every real degree
value `θ`, the denominator `1 + e·cos(θ·DEG_TO_RAD)` of
`getDistanceToFocusPoint` is bounded below by `1 − e > 0`, hence positive, so
the division is never by zero; and for `semiMajorAxis > 0` the result is
positive (and, being a real number, finite). -/
theorem claim_C9_denominator_safe (body : CelestialBody) (θ : ℝ)
    (he0 : 0 ≤ body.eccentricity) (he1 : body.eccentricity < 1)
    (ha : 0 < body.semiMajorAxis) :
    1 - body.eccentricity ≤ 1 + body.eccentricity * Real.cos (θ * DEG_TO_RAD) ∧
    0 < 1 + body.eccentricity * Real.cos (θ * DEG_TO_RAD) ∧
    0 < getDistanceToFocusPoint body θ := by
  have h1 := conic_denom_ge body.eccentricity (θ * DEG_TO_RAD) he0
  have h2 : 0 < 1 + body.eccentricity * Real.cos (θ * DEG_TO_RAD) := by linarith
  refine ⟨h1, h2, ?_⟩
  unfold getDistanceToFocusPoint
  apply div_pos _ h2
  have h3 : 0 < 1 - body.eccentricity ^ 2 := by nlinarith
  exact mul_pos ha h3

/-- Witness for C9 at the concrete body `wBody` and `θ = 123`. -/
theorem claim_C9_witness :
    0 ≤ wBody.eccentricity ∧ wBody.eccentricity < 1 ∧ 0 < wBody.semiMajorAxis ∧
    (1 - wBody.eccentricity ≤ 1 + wBody.eccentricity * Real.cos (123 * DEG_TO_RAD) ∧
    0 < 1 + wBody.eccentricity * Real.cos (123 * DEG_TO_RAD) ∧
    0 < getDistanceToFocusPoint wBody 123) :=
  ⟨by norm_num [wBody], by norm_num [wBody], by norm_num [wBody],
    claim_C9_denominator_safe wBody 123 (by norm_num [wBody]) (by norm_num [wBody])
      (by norm_num [wBody])⟩

/-- **C6.**  For every body (whose orbited body's position is the embedded
`orbitBodyPosition` field) and every true anomaly `θ`,
`getPositionForTrueAnomaly` returns the point whose `x` is
`(d·cos(θ·DEG_TO_RAD))/KM_TO_PX` plus the orbited body's `x` and whose `y` is
`(−(d·sin(θ·DEG_TO_RAD)))/KM_TO_PX` plus the orbited body's `y`, where `d` is
the distance to the focus; the `y` offset is sign-inverted relative to the
mathematical convention. -/
theorem claim_C6_positionForTrueAnomaly (body : CelestialBody) (θ : ℝ) :
    (getPositionForTrueAnomaly body θ).x =
      (getDistanceToFocusPoint body θ * Real.cos (θ * DEG_TO_RAD)) / KM_TO_PX +
        body.orbitBodyPosition.x ∧
    (getPositionForTrueAnomaly body θ).y =
      (-(getDistanceToFocusPoint body θ * Real.sin (θ * DEG_TO_RAD))) / KM_TO_PX +
        body.orbitBodyPosition.y := by
  constructor
  · rfl
  · show (-getDistanceToFocusPoint body θ * Real.sin (θ * DEG_TO_RAD)) / KM_TO_PX +
      body.orbitBodyPosition.y = _
    ring

/-- **C7.**  For every body with `semiMajorAxis a > 0` and eccentricity
`e ∈ [0,1)`, `getOrbitEllipse` returns `rx = a/KM_TO_PX`,
`ry = a·√(1 − e²)/KM_TO_PX`, `cy` equal to the orbited body's `y`, and `cx`
equal to the orbited body's `x` minus `a·e/KM_TO_PX`; for `e = 0` this
degenerates to `rx = ry = a/KM_TO_PX` with zero center offset. -/
theorem claim_C7_orbitEllipse (body : CelestialBody)
    (ha : 0 < body.semiMajorAxis) (he0 : 0 ≤ body.eccentricity)
    (he1 : body.eccentricity < 1) :
    (getOrbitEllipse body).rx = body.semiMajorAxis / KM_TO_PX ∧
    (getOrbitEllipse body).ry =
      body.semiMajorAxis * Real.sqrt (1 - body.eccentricity ^ 2) / KM_TO_PX ∧
    (getOrbitEllipse body).cy = body.orbitBodyPosition.y ∧
    (getOrbitEllipse body).cx =
      body.orbitBodyPosition.x - body.semiMajorAxis * body.eccentricity / KM_TO_PX ∧
    (body.eccentricity = 0 →
      (getOrbitEllipse body).ry = body.semiMajorAxis / KM_TO_PX ∧
      (getOrbitEllipse body).cx = body.orbitBodyPosition.x) := by
  have hry : (getOrbitEllipse body).ry =
      body.semiMajorAxis * Real.sqrt (1 - body.eccentricity ^ 2) / KM_TO_PX := by
    show Real.sqrt _ / KM_TO_PX = _
    rw [Real.sqrt_mul (sq_nonneg body.semiMajorAxis), Real.sqrt_sq ha.le]
  refine ⟨rfl, hry, rfl, ?_, ?_⟩
  · show body.orbitBodyPosition.x - body.eccentricity * body.semiMajorAxis / KM_TO_PX = _
    ring
  · intro he
    constructor
    · rw [hry, he]
      norm_num
    · show body.orbitBodyPosition.x - body.eccentricity * body.semiMajorAxis / KM_TO_PX = _
      rw [he]
      ring

/-- Witness for C7 at the concrete body `wBody`. -/
theorem claim_C7_witness :
    0 < wBody.semiMajorAxis ∧ 0 ≤ wBody.eccentricity ∧ wBody.eccentricity < 1 ∧
    ((getOrbitEllipse wBody).rx = wBody.semiMajorAxis / KM_TO_PX ∧
    (getOrbitEllipse wBody).ry =
      wBody.semiMajorAxis * Real.sqrt (1 - wBody.eccentricity ^ 2) / KM_TO_PX ∧
    (getOrbitEllipse wBody).cy = wBody.orbitBodyPosition.y ∧
    (getOrbitEllipse wBody).cx =
      wBody.orbitBodyPosition.x - wBody.semiMajorAxis * wBody.eccentricity / KM_TO_PX ∧
    (wBody.eccentricity = 0 →
      (getOrbitEllipse wBody).ry = wBody.semiMajorAxis / KM_TO_PX ∧
      (getOrbitEllipse wBody).cx = wBody.orbitBodyPosition.x)) :=
  ⟨by norm_num [wBody], by norm_num [wBody], by norm_num [wBody],
    claim_C7_orbitEllipse wBody (by norm_num [wBody]) (by norm_num [wBody])
      (by norm_num [wBody])⟩

/-- **C10.**  For every body with `semiMajorAxis a > 0` and eccentricity
`e ∈ [0,1)`, the ellipse returned by `getOrbitEllipse` satisfies
`0 < ry ≤ rx`, with `ry = rx` exactly when `e = 0`. -/
theorem claim_C10_ellipse_invariant (body : CelestialBody)
    (ha : 0 < body.semiMajorAxis) (he0 : 0 ≤ body.eccentricity)
    (he1 : body.eccentricity < 1) :
    0 < (getOrbitEllipse body).ry ∧
    (getOrbitEllipse body).ry ≤ (getOrbitEllipse body).rx ∧
    ((getOrbitEllipse body).ry = (getOrbitEllipse body).rx ↔ body.eccentricity = 0) := by
  have he2 : 0 < 1 - body.eccentricity ^ 2 := by nlinarith
  have hpos : 0 < body.semiMajorAxis ^ 2 * (1 - body.eccentricity ^ 2) :=
    mul_pos (by positivity) he2
  have hle : body.semiMajorAxis ^ 2 * (1 - body.eccentricity ^ 2) ≤
      body.semiMajorAxis ^ 2 := by nlinarith
  have hry : (getOrbitEllipse body).ry =
      Real.sqrt (body.semiMajorAxis ^ 2 * (1 - body.eccentricity ^ 2)) / KM_TO_PX := rfl
  have hrx : (getOrbitEllipse body).rx = body.semiMajorAxis / KM_TO_PX := rfl
  rw [hry, hrx]
  refine ⟨div_pos (Real.sqrt_pos.mpr hpos) KM_TO_PX_pos, ?_, ?_⟩
  · have h := Real.sqrt_le_sqrt hle
    rw [Real.sqrt_sq ha.le] at h
    exact (div_le_div_iff_of_pos_right KM_TO_PX_pos).mpr h
  · constructor
    · intro h
      have hKne : KM_TO_PX ≠ 0 := ne_of_gt KM_TO_PX_pos
      rw [div_eq_mul_inv, div_eq_mul_inv] at h
      have h1 : Real.sqrt (body.semiMajorAxis ^ 2 * (1 - body.eccentricity ^ 2)) =
          body.semiMajorAxis := mul_right_cancel₀ (inv_ne_zero hKne) h
      have h2 : body.semiMajorAxis ^ 2 * (1 - body.eccentricity ^ 2) =
          body.semiMajorAxis ^ 2 := by
        rw [← Real.sq_sqrt hpos.le, h1]
      have h3 : body.semiMajorAxis ^ 2 * body.eccentricity ^ 2 = 0 := by
        linear_combination -h2
      have ha2 : body.semiMajorAxis ^ 2 ≠ 0 := by positivity
      rcases mul_eq_zero.mp h3 with h4 | h4
      · exact absurd h4 ha2
      · exact sq_eq_zero_iff.mp h4
    · intro he
      rw [he, show body.semiMajorAxis ^ 2 * (1 - (0 : ℝ) ^ 2) = body.semiMajorAxis ^ 2
        by ring, Real.sqrt_sq ha.le]

/-- **C1.**  For every body and every positive integer `n`,
`getOrbitPath body n` returns exactly `n + 1` `OrbitPoint`s, sorted
non-decreasing by `trueAnomaly`, and consists (as a multiset) of `n` samples
at the evenly spaced true anomalies `i · (360 / n)` — all lying in
`[0°, 360°)` — plus one extra sample whose `trueAnomaly` is
`body.trueAnomaly` and whose coordinates are `body.position`. -/
theorem claim_C1_orbitPath (body : CelestialBody) (n : ℕ) (hn : 0 < n) :
    (getOrbitPath body n).length = n + 1 ∧
    List.Sorted byTrueAnomaly (getOrbitPath body n) ∧
    (getOrbitPath body n).Perm
      ((List.range n).map (fun (i : ℕ) =>
          OrbitPoint.mk ((i : ℝ) * (360 / (n : ℝ)))
            (getPositionForTrueAnomaly body ((i : ℝ) * (360 / (n : ℝ)))).x
            (getPositionForTrueAnomaly body ((i : ℝ) * (360 / (n : ℝ)))).y) ++
        [OrbitPoint.mk body.trueAnomaly body.position.x body.position.y]) ∧
    (∀ i : ℕ, i < n →
      0 ≤ (i : ℝ) * (360 / (n : ℝ)) ∧ (i : ℝ) * (360 / (n : ℝ)) < 360) := by
  have hperm : (getOrbitPath body n).Perm
      ((List.range n).map (fun (i : ℕ) =>
          OrbitPoint.mk ((i : ℝ) * (360 / (n : ℝ)))
            (getPositionForTrueAnomaly body ((i : ℝ) * (360 / (n : ℝ)))).x
            (getPositionForTrueAnomaly body ((i : ℝ) * (360 / (n : ℝ)))).y) ++
        [OrbitPoint.mk body.trueAnomaly body.position.x body.position.y]) := by
    unfold getOrbitPath
    rw [d3Range_eq n hn, List.map_map]
    exact List.perm_insertionSort byTrueAnomaly _
  refine ⟨?_, ?_, hperm, ?_⟩
  · rw [hperm.length_eq, List.length_append, List.length_map, List.length_range]
    rfl
  · exact List.sorted_insertionSort byTrueAnomaly _
  · intro i hi
    have hn' : (0 : ℝ) < (n : ℝ) := Nat.cast_pos.mpr hn
    have hstep : (0 : ℝ) < 360 / (n : ℝ) := by positivity
    constructor
    · positivity
    · have hi' : (i : ℝ) < (n : ℝ) := Nat.cast_lt.mpr hi
      calc (i : ℝ) * (360 / (n : ℝ)) < (n : ℝ) * (360 / (n : ℝ)) :=
            mul_lt_mul_of_pos_right hi' hstep
        _ = 360 := by field_simp

/-- Witness for C1 at the concrete body `wBody` and `n = 1`. -/
theorem claim_C1_witness :
    0 < 1 ∧
    ((getOrbitPath wBody 1).length = 1 + 1 ∧
    List.Sorted byTrueAnomaly (getOrbitPath wBody 1) ∧
    (getOrbitPath wBody 1).Perm
      ((List.range 1).map (fun (i : ℕ) =>
          OrbitPoint.mk ((i : ℝ) * (360 / (1 : ℕ) : ℝ))
            (getPositionForTrueAnomaly wBody ((i : ℝ) * (360 / (1 : ℕ) : ℝ))).x
            (getPositionForTrueAnomaly wBody ((i : ℝ) * (360 / (1 : ℕ) : ℝ))).y) ++
        [OrbitPoint.mk wBody.trueAnomaly wBody.position.x wBody.position.y]) ∧
    (∀ i : ℕ, i < 1 →
      0 ≤ (i : ℝ) * (360 / (1 : ℕ) : ℝ) ∧ (i : ℝ) * (360 / (1 : ℕ) : ℝ) < 360)) :=
  ⟨Nat.one_pos, claim_C1_orbitPath wBody 1 Nat.one_pos⟩

/-- **C2.**  For every orbiting (non-primary) catalog record `i` — one whose
`orbitBody` references some record `j` — once the constructor's
initialization pass has run (over a catalog in the primary-first topological
order of the spec's ordering contract, i.e. every record's orbit parent
precedes it), `getPositionForTrueAnomaly(body, body.trueAnomaly)` equals the
cached `body.position`. -/
theorem claim_C2_position_idempotent {n : ℕ} (cat : Fin n → CatalogBody n)
    (hord : ∀ i j : Fin n, (cat i).orbitBody = some j → (j : ℕ) < (i : ℕ))
    (i j : Fin n) (hij : (cat i).orbitBody = some j) :
    getPositionForTrueAnomaly (bodyAfterInit cat i) (bodyAfterInit cat i).trueAnomaly =
      (bodyAfterInit cat i).position := by
  have hji : (j : ℕ) < (i : ℕ) := hord i j hij
  have hstepval : initPositions cat i =
      getPositionForTrueAnomaly
        (CatalogBody.view cat (initUpto cat (i : ℕ)) i ((cat i).meanAnomaly))
        ((cat i).meanAnomaly) := by
    rw [initPositions_eq_upto cat i]
    show initUpto cat ((i : ℕ) + 1) i = _
    simp only [initUpto]
    split
    · simp only [Fin.eta]
      simp only [initStep, hij]
      rw [Function.update_same]
    · rename_i him
      exact absurd i.isLt him
  have hparent : initUpto cat (i : ℕ) j = initPositions cat j := by
    rw [initUpto_stable cat j (i : ℕ) hji, initPositions_eq_upto cat j]
  show getPositionForTrueAnomaly
      (CatalogBody.view cat (initPositions cat) i ((cat i).meanAnomaly))
      ((cat i).meanAnomaly) = initPositions cat i
  rw [hstepval]
  apply getPositionForTrueAnomaly_congr
  · rfl
  · rfl
  · simp only [CatalogBody.view, hij]
    exact hparent.symm

/-- Witness for C2 at the concrete two-record catalog `catW`. -/
theorem claim_C2_witness :
    (∀ i j : Fin 2, (catW i).orbitBody = some j → (j : ℕ) < (i : ℕ)) ∧
    (catW 1).orbitBody = some 0 ∧
    getPositionForTrueAnomaly (bodyAfterInit catW 1) (bodyAfterInit catW 1).trueAnomaly =
      (bodyAfterInit catW 1).position :=
  ⟨by decide, by decide, claim_C2_position_idempotent catW (by decide) 1 0 (by decide)⟩

/-- **C3.**  The `L4` point returned by the libration solver is the
secondary's position vector rotated by `+60°` about the primary (in the
display coordinate frame, whose y-axis points down: the mathematical rotation
conjugated by the y-flip), and `L5` is the same vector rotated by `−60°`,
each tagged with its respective type. -/
theorem claim_C3_l4_l5_rotation (sunMass earthMass : ℝ) (p : Point) :
    (getEarthLagrangePoints sunMass earthMass p).l4.pt = rotateDisplayDeg 60 p ∧
    (getEarthLagrangePoints sunMass earthMass p).l4.type = LagrangePointType.L4 ∧
    (getEarthLagrangePoints sunMass earthMass p).l5.pt = rotateDisplayDeg (-60) p ∧
    (getEarthLagrangePoints sunMass earthMass p).l5.type = LagrangePointType.L5 := by
  refine ⟨?_, rfl, ?_, rfl⟩
  · unfold rotateDisplayDeg rotateRad yFlip
    ext <;> dsimp [getEarthLagrangePoints, LagrangePoint.pt] <;> ring_nf
  · unfold rotateDisplayDeg rotateRad yFlip
    ext <;> dsimp [getEarthLagrangePoints, LagrangePoint.pt] <;> ring_nf

/-- **C8.**  With the primary at the origin, the Euclidean distances from the
primary to the returned `L4` and `L5` points both equal the Euclidean
distance from the primary to the secondary (equilateral-triangle property). -/
theorem claim_C8_l4_l5_distance (sunMass earthMass : ℝ) (p : Point) :
    pointNorm (getEarthLagrangePoints sunMass earthMass p).l4.pt = pointNorm p ∧
    pointNorm (getEarthLagrangePoints sunMass earthMass p).l5.pt = pointNorm p := by
  constructor
  · show Real.sqrt _ = Real.sqrt _
    congr 1
    have h := Real.sin_sq_add_cos_sq (60 * DEG_TO_RAD)
    dsimp [getEarthLagrangePoints, LagrangePoint.pt]
    linear_combination (p.x ^ 2 + p.y ^ 2) * h
  · show Real.sqrt _ = Real.sqrt _
    congr 1
    have h := Real.sin_sq_add_cos_sq (-60 * DEG_TO_RAD)
    dsimp [getEarthLagrangePoints, LagrangePoint.pt]
    linear_combination (p.x ^ 2 + p.y ^ 2) * h

/-- **C4.**  With the primary at the origin and the secondary at distance
`d = pointNorm p`: `L1` lies at distance `d − r` and `L2` at `d + r` from the
primary, scaled along the secondary's position vector, where
`r = d · cbrt(massSecondary / (3·massPrimary))`; `L3` lies at distance
`d − r'` from the primary along the negated position vector, where
`r' = d · (7·massSecondary)/(12·massPrimary)`; each result carries its type
tag.  (The mass hypotheses keep the offsets inside the secondary's orbit,
matching the solver's small-mass-ratio domain.) -/
theorem claim_C4_collinear_points (sunMass earthMass : ℝ) (p : Point)
    (hm1 : 0 < sunMass) (hm2 : 0 ≤ earthMass)
    (h3 : earthMass ≤ 3 * sunMass) (h7 : 7 * earthMass ≤ 12 * sunMass)
    (hp : 0 < pointNorm p) :
    (getEarthLagrangePoints sunMass earthMass p).l1.pt =
      scalePoint ((pointNorm p - pointNorm p * cbrt (earthMass / (3 * sunMass))) /
        pointNorm p) p ∧
    pointNorm (getEarthLagrangePoints sunMass earthMass p).l1.pt =
      pointNorm p - pointNorm p * cbrt (earthMass / (3 * sunMass)) ∧
    (getEarthLagrangePoints sunMass earthMass p).l1.type = LagrangePointType.L1 ∧
    (getEarthLagrangePoints sunMass earthMass p).l2.pt =
      scalePoint ((pointNorm p + pointNorm p * cbrt (earthMass / (3 * sunMass))) /
        pointNorm p) p ∧
    pointNorm (getEarthLagrangePoints sunMass earthMass p).l2.pt =
      pointNorm p + pointNorm p * cbrt (earthMass / (3 * sunMass)) ∧
    (getEarthLagrangePoints sunMass earthMass p).l2.type = LagrangePointType.L2 ∧
    (getEarthLagrangePoints sunMass earthMass p).l3.pt =
      scalePoint ((pointNorm p - pointNorm p * ((7 * earthMass) / (12 * sunMass))) /
        pointNorm p) (negPoint p) ∧
    pointNorm (getEarthLagrangePoints sunMass earthMass p).l3.pt =
      pointNorm p - pointNorm p * ((7 * earthMass) / (12 * sunMass)) ∧
    (getEarthLagrangePoints sunMass earthMass p).l3.type = LagrangePointType.L3 := by
  have hdne : pointNorm p ≠ 0 := ne_of_gt hp
  have h3m : (0 : ℝ) < 3 * sunMass := by linarith
  have h12m : (0 : ℝ) < 12 * sunMass := by linarith
  have hq0 : 0 ≤ cbrt (earthMass / (3 * sunMass)) :=
    cbrt_nonneg _ (div_nonneg hm2 h3m.le)
  have hq1 : cbrt (earthMass / (3 * sunMass)) ≤ 1 :=
    cbrt_le_one _ (div_nonneg hm2 h3m.le) ((div_le_one h3m).mpr h3)
  have hq30 : 0 ≤ (7 * earthMass) / (12 * sunMass) :=
    div_nonneg (by linarith) h12m.le
  have hq31 : (7 * earthMass) / (12 * sunMass) ≤ 1 :=
    (div_le_one h12m).mpr h7
  have h1pt : (getEarthLagrangePoints sunMass earthMass p).l1.pt =
      scalePoint ((pointNorm p - pointNorm p * cbrt (earthMass / (3 * sunMass))) /
        pointNorm p) p := by
    ext <;> dsimp [getEarthLagrangePoints, LagrangePoint.pt, scalePoint, pointNorm] <;> ring
  have h2pt : (getEarthLagrangePoints sunMass earthMass p).l2.pt =
      scalePoint ((pointNorm p + pointNorm p * cbrt (earthMass / (3 * sunMass))) /
        pointNorm p) p := by
    ext <;> dsimp [getEarthLagrangePoints, LagrangePoint.pt, scalePoint, pointNorm] <;> ring
  have h3pt : (getEarthLagrangePoints sunMass earthMass p).l3.pt =
      scalePoint ((pointNorm p - pointNorm p * ((7 * earthMass) / (12 * sunMass))) /
        pointNorm p) (negPoint p) := by
    ext <;>
      dsimp [getEarthLagrangePoints, LagrangePoint.pt, scalePoint, negPoint, pointNorm] <;>
      ring
  have ht1 : 0 ≤ (pointNorm p - pointNorm p * cbrt (earthMass / (3 * sunMass))) /
      pointNorm p := by
    apply div_nonneg _ hp.le
    nlinarith
  have ht2 : 0 ≤ (pointNorm p + pointNorm p * cbrt (earthMass / (3 * sunMass))) /
      pointNorm p := by
    apply div_nonneg _ hp.le
    nlinarith
  have ht3 : 0 ≤ (pointNorm p - pointNorm p * ((7 * earthMass) / (12 * sunMass))) /
      pointNorm p := by
    apply div_nonneg _ hp.le
    nlinarith
  refine ⟨h1pt, ?_, rfl, h2pt, ?_, rfl, h3pt, ?_, rfl⟩
  · rw [h1pt, pointNorm_scalePoint _ _ ht1, div_mul_cancel₀ _ hdne]
  · rw [h2pt, pointNorm_scalePoint _ _ ht2, div_mul_cancel₀ _ hdne]
  · rw [h3pt, pointNorm_scalePoint _ _ ht3, pointNorm_negPoint, div_mul_cancel₀ _ hdne]

/-- Witness for C4: sun mass `1`, earth mass `3/8` (so the cube-root ratio is
`1/2`), secondary at `(1, 0)`. -/
theorem claim_C4_witness :
    (0 : ℝ) < 1 ∧ (0 : ℝ) ≤ 3 / 8 ∧ (3 : ℝ) / 8 ≤ 3 * 1 ∧
    7 * (3 : ℝ) / 8 ≤ 12 * 1 ∧ 0 < pointNorm ⟨1, 0⟩ ∧
    ((getEarthLagrangePoints 1 (3 / 8) ⟨1, 0⟩).l1.pt =
      scalePoint ((pointNorm ⟨1, 0⟩ - pointNorm ⟨1, 0⟩ * cbrt ((3 / 8) / (3 * 1))) /
        pointNorm ⟨1, 0⟩) ⟨1, 0⟩ ∧
    pointNorm (getEarthLagrangePoints 1 (3 / 8) ⟨1, 0⟩).l1.pt =
      pointNorm ⟨1, 0⟩ - pointNorm ⟨1, 0⟩ * cbrt ((3 / 8) / (3 * 1)) ∧
    (getEarthLagrangePoints 1 (3 / 8) ⟨1, 0⟩).l1.type = LagrangePointType.L1 ∧
    (getEarthLagrangePoints 1 (3 / 8) ⟨1, 0⟩).l2.pt =
      scalePoint ((pointNorm ⟨1, 0⟩ + pointNorm ⟨1, 0⟩ * cbrt ((3 / 8) / (3 * 1))) /
        pointNorm ⟨1, 0⟩) ⟨1, 0⟩ ∧
    pointNorm (getEarthLagrangePoints 1 (3 / 8) ⟨1, 0⟩).l2.pt =
      pointNorm ⟨1, 0⟩ + pointNorm ⟨1, 0⟩ * cbrt ((3 / 8) / (3 * 1)) ∧
    (getEarthLagrangePoints 1 (3 / 8) ⟨1, 0⟩).l2.type = LagrangePointType.L2 ∧
    (getEarthLagrangePoints 1 (3 / 8) ⟨1, 0⟩).l3.pt =
      scalePoint ((pointNorm ⟨1, 0⟩ - pointNorm ⟨1, 0⟩ * ((7 * (3 / 8)) / (12 * 1))) /
        pointNorm ⟨1, 0⟩) (negPoint ⟨1, 0⟩) ∧
    pointNorm (getEarthLagrangePoints 1 (3 / 8) ⟨1, 0⟩).l3.pt =
      pointNorm ⟨1, 0⟩ - pointNorm ⟨1, 0⟩ * ((7 * (3 / 8)) / (12 * 1)) ∧
    (getEarthLagrangePoints 1 (3 / 8) ⟨1, 0⟩).l3.type = LagrangePointType.L3) :=
  ⟨by norm_num, by norm_num, by norm_num, by norm_num,
    by simp [pointNorm],
    claim_C4_collinear_points 1 (3 / 8) ⟨1, 0⟩ (by norm_num) (by norm_num)
      (by norm_num) (by norm_num) (by simp [pointNorm])⟩

/-- Witness for C10 at the concrete body `wBody`. -/
theorem claim_C10_witness :
    0 < wBody.semiMajorAxis ∧ 0 ≤ wBody.eccentricity ∧ wBody.eccentricity < 1 ∧
    (0 < (getOrbitEllipse wBody).ry ∧
    (getOrbitEllipse wBody).ry ≤ (getOrbitEllipse wBody).rx ∧
    ((getOrbitEllipse wBody).ry = (getOrbitEllipse wBody).rx ↔ wBody.eccentricity = 0)) :=
  ⟨by norm_num [wBody], by norm_num [wBody], by norm_num [wBody],
    claim_C10_ellipse_invariant wBody (by norm_num [wBody]) (by norm_num [wBody])
      (by norm_num [wBody])⟩

end

end SolarSystem
